import Mathlib

/-!
Shallow embedding of the Gemini service layer of this repository
(`src/services/geminiService.ts` and its near-duplicate `src/unnamed/part_000`).

Strings are modelled as `List Char`.  The remote generation capability,
`JSON.parse`, the client constructor `new GoogleGenAI`, and the platform
number-to-string conversion are external to the repository and are modelled
as components of a `World` record; every repository-side decision (guards,
retry loop, response validation, error classification, prompt construction)
is translated directly from the source.  Side effects (credential reads,
client construction, remote requests, retry delays) are recorded in an
explicit event trace.
-/

namespace Kutbi

/-- Strings of the embedded program, as lists of characters. -/
abbrev Str := List Char

/-- Coerce a Lean string literal to an embedded string. -/
def strOf (s : String) : Str := s.data

/-- The JavaScript whitespace class, as used by the `\s` regex class and
`String.prototype.trim` (WhiteSpace plus LineTerminator code points). -/
def jsWs (c : Char) : Bool :=
  c = ' ' || c = '\t' || c = '\n' || c = '\r' || c = '\u000B' || c = '\u000C' ||
  c = '\u00A0' || c = '\u1680' || ('\u2000' ≤ c && c ≤ '\u200A') ||
  c = '\u2028' || c = '\u2029' || c = '\u202F' || c = '\u205F' || c = '\u3000' ||
  c = '\uFEFF'

/-- JavaScript `String.prototype.trim`: drop whitespace from both ends. -/
def jsTrim (s : Str) : Str := (s.dropWhile jsWs).rdropWhile jsWs

/-- JavaScript `String.prototype.includes`: substring containment test. -/
def strIncludes (needle : Str) : Str → Bool
  | [] => needle.isEmpty
  | c :: rest => needle.isPrefixOf (c :: rest) || strIncludes needle rest

/-- JSON values as produced by `JSON.parse`.  JSON numbers are IEEE doubles in
JavaScript; the values relevant here are small and exactly representable, so
they are modelled as rationals. -/
inductive Json where
  | null
  | bool (b : Bool)
  | num (q : ℚ)
  | str (s : Str)
  | arr (xs : List Json)
  | obj (fields : List (Str × Json))

/-- A JavaScript exception: whether it is an `instanceof Error`, and its
`message`. -/
structure JsError where
  isError : Bool
  message : Str
deriving DecidableEq

/-- A value returned by `callGeminiWithRetry`: the raw response text, or the
decoded JSON structure when a structured response was requested. -/
inductive GemValue where
  | text (s : Str)
  | json (j : Json)

/-- The `GoogleGenAI` client handle, bound to the credential it was
constructed from. -/
structure Handle where
  apiKey : Str
deriving DecidableEq

/-- Outcome of one `generateContent` request: either the call rejects with an
exception, or it resolves with a `response.text` (which may be `undefined`,
modelled as `none`). -/
inductive AttemptOutcome where
  | throwErr (e : JsError)
  | respond (text : Option Str)

/-- Observable side effects of the service layer. -/
inductive Event where
  | readEnv
  | readLS
  | construct (key : Str)
  | removeLS
  | request (prompt : Str)
  | streamRequest (prompt : Str)
  | sleep (ms : Nat)
deriving DecidableEq

abbrev Trace := List Event

/-- The environment the service runs in: the mutable singleton `ai`, the two
credential sources, and the behaviour of the external collaborators
(`new GoogleGenAI`, `JSON.parse`, the remote generation capability, and the
platform number rendering). -/
structure World where
  ai : Option Handle
  env : Option Str
  store : Option Str
  mkClient : Str → Option Handle
  parse : Str → Option Json
  oracle : Str → Nat → AttemptOutcome
  streamOracle : Str → List (Option Str)
  streamErr : Str → Option JsError
  numToStr : ℚ → Str

/-- The sentinel credential-missing error, thrown as a new Error with message API_KEY_MISSING. -/
def apiKeyMissingErr : JsError := ⟨true, strOf "API_KEY_MISSING"⟩

/-- The initialization-failure error of `getAiInstance`. -/
def initFailedErr : JsError :=
  ⟨true, strOf "فشل في تهيئة Gemini API. يرجى التحقق من صحة مفتاح API الخاص بك."⟩

/-- The empty-response error of `callGeminiWithRetry`. -/
def emptyResponseErr : JsError :=
  ⟨true, strOf "أرجع النموذج استجابة فارغة. قد يكون المحتوى غير واضح أو قصير جدًا للتحليل."⟩

/-- The empty-JSON-response error of `callGeminiWithRetry`. -/
def emptyJsonErr : JsError := ⟨true, strOf "أرجع النموذج استجابة JSON فارغة."⟩

/-- The malformed-JSON-response error of `callGeminiWithRetry`. -/
def badJsonErr : JsError :=
  ⟨true, strOf "فشل النموذج في إنشاء استجابة بتنسيق JSON صحيح."⟩

/-- The generic exhaustion error of `callGeminiWithRetry`. -/
def connExhaustedErr : JsError :=
  ⟨true, strOf "فشل الاتصال بـ Gemini API بعد عدة محاولات."⟩

/-- The `getAiInstance` of `src/services/geminiService.ts`: return the cached
handle, otherwise resolve the credential from `process.env.API_KEY` then
`localStorage`, and construct the client.  On construction failure the
persisted credential is left in place. -/
def getAiInstance (w : World) : Except JsError Handle × World × Trace :=
  match w.ai with
  | some h => (.ok h, w, [])
  | none =>
    let envKey : Option Str :=
      match w.env with
      | some k => if k.isEmpty then none else some k
      | none => none
    let resolved : Option Str × Trace :=
      match envKey with
      | some k => (some k, [Event.readEnv])
      | none =>
        match w.store with
        | some k => (if k.isEmpty then none else some k, [Event.readEnv, Event.readLS])
        | none => (none, [Event.readEnv, Event.readLS])
    match resolved with
    | (none, tr) => (.error apiKeyMissingErr, w, tr)
    | (some k, tr) =>
      match w.mkClient k with
      | some h => (.ok h, { w with ai := some h }, tr ++ [Event.construct k])
      | none => (.error initFailedErr, w, tr ++ [Event.construct k])

/-- The `getAiInstance` of `src/unnamed/part_000`: `localStorage` is the only
credential source, and on construction failure the persisted credential is
removed (`localStorage.removeItem('gemini_api_key')`). -/
def getAiInstanceP0 (w : World) : Except JsError Handle × World × Trace :=
  match w.ai with
  | some h => (.ok h, w, [])
  | none =>
    let key : Option Str :=
      match w.store with
      | some k => if k.isEmpty then none else some k
      | none => none
    match key with
    | none => (.error apiKeyMissingErr, w, [Event.readLS])
    | some k =>
      match w.mkClient k with
      | some h => (.ok h, { w with ai := some h }, [Event.readLS, Event.construct k])
      | none =>
        (.error initFailedErr, { w with store := none },
          [Event.readLS, Event.construct k, Event.removeLS])

/-- The replacement `textResponse.replace(/^```json\s*|```\s*$/g, '')`:
remove a leading ```` ```json ```` marker together with the whitespace after
it, and remove a trailing ```` ``` ```` marker together with the whitespace
after it. -/
def stripJsonFence (s : Str) : Str :=
  let s1 := if (strOf "```json").isPrefixOf s then (s.drop 7).dropWhile jsWs else s
  let u := s1.rdropWhile jsWs
  if (strOf "```").isSuffixOf u then u.rdrop 3 else s1

/-- The structured-response decoding step of `callGeminiWithRetry`: strip the
code fence, trim, reject an empty payload, and hand the rest to
`JSON.parse`. -/
def decodeStructured (parse : Str → Option Json) (text : Str) : Except JsError Json :=
  let cleaned := jsTrim (stripJsonFence text)
  if cleaned.isEmpty then .error emptyJsonErr
  else
    match parse cleaned with
    | some j => .ok j
    | none => .error badJsonErr

/-- One attempt of the retry loop body: reject an absent or blank response
text, then either return the raw text or decode the structured payload. -/
def runAttempt (isJson : Bool) (parse : Str → Option Json) (o : AttemptOutcome) :
    Except JsError GemValue :=
  match o with
  | .throwErr e => .error e
  | .respond t? =>
    let text := t?.getD []
    if (jsTrim text).isEmpty then .error emptyResponseErr
    else if isJson then (decodeStructured parse text).map .json
    else .ok (.text text)

/-- The curated error test of `geminiService.ts` on exhaustion: re-raise the
terminal error itself when it is an `Error` whose message contains
"Gemini API", "استجابة فارغة" or "JSON", or is exactly "API_KEY_MISSING". -/
def curatedTs (e : JsError) : Bool :=
  e.isError &&
    (strIncludes (strOf "Gemini API") e.message ||
     strIncludes (strOf "استجابة فارغة") e.message ||
     strIncludes (strOf "JSON") e.message ||
     e.message == strOf "API_KEY_MISSING")

/-- Terminal classification of `geminiService.ts`. -/
def classifyTs (e : JsError) : JsError :=
  if curatedTs e then e else connExhaustedErr

/-- The authentication-rejection test of `part_000` on exhaustion. -/
def authLikeP0 (e : JsError) : Bool :=
  e.isError &&
    (strIncludes (strOf "API key not valid") e.message ||
     strIncludes (strOf "API_KEY_MISSING") e.message)

/-- The remaining curated test of `part_000` on exhaustion. -/
def curatedP0 (e : JsError) : Bool :=
  e.isError &&
    (strIncludes (strOf "Gemini API") e.message ||
     strIncludes (strOf "استجابة فارغة") e.message ||
     strIncludes (strOf "JSON") e.message)

/-- Terminal classification of `part_000`: an authentication-shaped terminal
error is replaced by a fresh `API_KEY_MISSING` error; the other curated kinds
are re-raised unchanged; anything else becomes the generic exhaustion
error. -/
def classifyP0 (e : JsError) : JsError :=
  if authLikeP0 e then apiKeyMissingErr
  else if curatedP0 e then e
  else connExhaustedErr

/-- The `while (attempts > 0)` loop of `callGeminiWithRetry`, parameterised by
the terminal classification (the only point where the two source files
differ).  `fuel` is the `attempts` counter, `idx` numbers the requests. -/
def retryLoop (prompt : Str) (isJson : Bool) (parse : Str → Option Json)
    (oracle : Nat → AttemptOutcome) (classify : JsError → JsError) :
    Nat → Nat → Except JsError GemValue × Trace
  | 0, _ => (.error connExhaustedErr, [])
  | n + 1, idx =>
    match runAttempt isJson parse (oracle idx) with
    | .ok v => (.ok v, [Event.request prompt])
    | .error e =>
      if n = 0 then (.error (classify e), [Event.request prompt])
      else
        let r := retryLoop prompt isJson parse oracle classify n (idx + 1)
        (r.1, Event.request prompt :: Event.sleep 1000 :: r.2)

/-- The `callGeminiWithRetry` of `geminiService.ts`: obtain the handle (its
failures propagate with no attempt made), then run at most 3 attempts with a
1000 ms delay after each non-terminal failure. -/
def callGeminiWithRetry (w : World) (prompt : Str) (isJson : Bool) :
    Except JsError GemValue × World × Trace :=
  match getAiInstance w with
  | (.error e, w', tr) => (.error e, w', tr)
  | (.ok _, w', tr) =>
    let r := retryLoop prompt isJson w.parse (w.oracle prompt) classifyTs 3 0
    (r.1, w', tr ++ r.2)

/-- The `callGeminiWithRetry` of `part_000` (same loop, other classification and
handle acquisition). -/
def callGeminiWithRetryP0 (w : World) (prompt : Str) (isJson : Bool) :
    Except JsError GemValue × World × Trace :=
  match getAiInstanceP0 w with
  | (.error e, w', tr) => (.error e, w', tr)
  | (.ok _, w', tr) =>
    let r := retryLoop prompt isJson w.parse (w.oracle prompt) classifyP0 3 0
    (r.1, w', tr ++ r.2)

def tpl_analysis_0 : Str := strOf "\n        قم بتحليل النص التالي بعناية وقدم ملخصًا شاملاً. يجب أن يحدد الملخص النقاط الرئيسية والحجج والأفكار الأساسية المقدمة في المستند.\n        \n        يرجى تنظيم إجابتك على النحو التالي:\n        1.  **ملخص موجز:** فقرة قصيرة تلخص الغرض العام والمحتوى للمستند.\n        2.  **النقاط الرئيسية:** قائمة نقطية (bullet points) لأهم 3-5 نقاط أو نتائج من النص.\n        3.  **الاستنتاج:** استنتاج نهائي أو الفكرة الرئيسية التي يمكن استخلاصها من المستند.\n        \n        تأكد من أن التحليل واضح وموجز وسهل الفهم.\n        ---\n        محتوى المستند:\n        "
def tpl_analysis_1 : Str := strOf "\n        ---\n    "
def tpl_categorize_0 : Str := strOf "\n        بناءً على النص التالي، اقترح من 2 إلى 4 تصنيفات ذات صلة. يجب أن يكون كل تصنيف كلمة أو كلمتين فقط.\n        مثال على التصنيفات: \"فقه\", \"عقيدة\", \"تاريخ إسلامي\", \"سيرة نبوية\", \"تطوير ذات\".\n        ---\n        محتوى المستند:\n        "
def tpl_categorize_1 : Str := strOf "\n        ---\n    "
def tpl_summarize_0 : Str := strOf "\n        مهمتك هي إنشاء ملخص مفصل للنص التالي. اتبع التعليمات بدقة:\n        1.  اقرأ النص بالكامل.\n        2.  قم بالمرور على كل فقرة من فقرات النص بشكل منفصل.\n        3.  لكل فقرة، اكتب ملخصًا مفصلاً يشرح فكرتها الرئيسية والتفاصيل الهامة.\n        4.  يجب أن يكون الناتج النهائي عبارة عن مجموعة من هذه الملخصات المفصلة، واحدة لكل فقرة.\n        5.  الهدف هو أن يكون الطول الإجمالي للملخص الناتج كبيرًا، أي ما يقارب نصف طول النص الأصلي. حافظ على وضوح اللغة وسهولة القراءة.\n        \n        ---\n        محتوى المستند:\n        "
def tpl_summarize_1 : Str := strOf "\n        ---\n    "
def tpl_quiz_0 : Str := strOf "\n        بناءً على النص التالي، قم بإنشاء اختبار من "
def tpl_quiz_1 : Str := strOf " أسئلة من نوع الاختيار من متعدد. يجب أن يحتوي كل سؤال على 4 خيارات.\n        ---\n        محتوى المستند:\n        "
def tpl_quiz_2 : Str := strOf "\n        ---\n    "
def tpl_sentiment_0 : Str := strOf "\n        حلل المشاعر في النص التالي. حدد ما إذا كانت المشاعر العامة \"إيجابية\" أو \"سلبية\" أو \"محايدة\". قدم شرحًا موجزًا لتقييمك.\n        ---\n        محتوى المستند:\n        "
def tpl_sentiment_1 : Str := strOf "\n        ---\n    "
def tpl_keywords_0 : Str := strOf "\n        استنادًا إلى النص التالي، قم باستخراج أهم 5 إلى 10 كلمات رئيسية أو عبارات أساسية تمثل الموضوعات الرئيسية.\n        ---\n        محتوى المستند:\n        "
def tpl_keywords_1 : Str := strOf "\n        ---\n    "
def tpl_translateEn_0 : Str := strOf "Translate the following Arabic text to English. Maintain the original formatting (markdown headers, lists, bold text, etc.).\n\n---\n\n"
def tpl_translateAr_0 : Str := strOf "Translate the following English text to Arabic. Maintain the original formatting (markdown headers, lists, bold text, etc.).\n\n---\n\n"
def tpl_bookDesc_0 : Str := strOf "\n        بناءً على مقتطف النص التالي من كتاب، قم بإنشاء وصف جذاب وموجز للكتاب يتكون من حوالي 40 كلمة.\n        يجب أن يكون الوصف مناسبًا للعرض في قائمة مكتبة لجذب القارئ.\n        ---\n        محتوى المستند:\n        "
def tpl_bookDesc_1 : Str := strOf " \n        ---\n    "
def tpl_videoDesc_0 : Str := strOf "\n        بناءً على عنوان الفيديو التالي، قم بإنشاء وصف جذاب وموجز للفيديو يتكون من حوالي 30-40 كلمة.\n        يجب أن يكون الوصف مناسبًا للعرض في مكتبة وسائط لجذب المشاهد.\n        ---\n        عنوان الفيديو:\n        \""
def tpl_videoDesc_1 : Str := strOf "\"\n        ---\n    "
def tpl_bookTitle_0 : Str := strOf "\n        مهمتك هي التصرف كقارئ ذكي يحلل الصفحة الأولى من كتاب. النص التالي هو بداية مستند تم رفعه. ابحث عن العنوان الرئيسي والبارز في هذا النص، كما لو كان مطبوعًا على غلاف الكتاب.\n        \n        أريد العنوان فقط، بدون أي كلمات إضافية مثل \"العنوان هو:\". يجب أن يكون الجواب هو العنوان الصريح.\n        \n        إذا لم تتمكن من تحديد عنوان واضح، أجب بـ \"عنوان غير معروف\".\n        ---\n        مقتطف من الصفحة الأولى:\n        "
def tpl_bookTitle_1 : Str := strOf "\n        ---\n    "
def tpl_script_0 : Str := strOf "\n        مهمتك هي العمل ككاتب سيناريو خبير. بناءً على عنوان الفيديو ووصفه، قم بإنشاء نص تفصيلي (script) للفيديو. \n        يجب أن يكون النص منسقًا بشكل جيد، ويتضمن حوارًا أو حديثًا واضحًا، ويمكن أن يتضمن إشارات للمشاهد المرئية إن أمكن. \n        اجعل النص يبدو طبيعيًا كما لو كان تفريغًا صوتيًا حقيقيًا للفيديو.\n\n        عنوان الفيديو: \""
def tpl_script_1 : Str := strOf "\"\n\n        وصف الفيديو: \""
def tpl_script_2 : Str := strOf "\"\n\n        ---\n        النص المقترح:\n    "
def tpl_suggestions_0 : Str := strOf "\n        Based on the following Arabic text, provide 5 general, single-word search keywords in Arabic that represent the main themes.\n        These keywords should be broad enough to find matches in a library of books and videos.\n        Avoid very specific phrases or sentences. Return only a JSON array of single-word strings.\n        Example: [\"الفقه\", \"العقيدة\", \"السنة\", \"العبادات\"]\n        ---\n        النص:\n        "
def tpl_suggestions_1 : Str := strOf "\n        ---\n    "
def tpl_article_0 : Str := strOf "\n        مهمتك هي العمل ككاتب محتوى محترف. قم بتحويل النص التالي إلى مقال جذاب ومناسب للنشر في مدونة شخصية.\n        \n        التعليمات:\n        1.  ابدأ بعنوان جذاب يلخص الفكرة الرئيسية. استخدم تنسيق Markdown للعنوان (مثال: # عنوان المقال).\n        2.  قسم المحتوى إلى فقرات قصيرة وسهلة القراءة.\n        3.  استخدم عناوين فرعية (مثال: ## عنوان فرعي) لتنظيم المقال إذا كان المحتوى طويلاً.\n        4.  حافظ على جوهر وأفكار النص الأصلي، لكن أعد صياغته بأسلوب شيق ومناسب لجمهور عام.\n        5.  في نهاية المقال **بالضبط**، وبدون أي نص إضافي بعدها، أضف السطر التالي: \"صمم بواسطة الكُتُبي الذكي لأكاديمية درسني\".\n\n        ---\n        محتوى المستند الأصلي:\n        "
def tpl_article_1 : Str := strOf "\n        ---\n    "
def tpl_rate_0 : Str := strOf "\n        مهمتك هي العمل كناقد أدبي خبير. قم بتقييم النص العربي التالي.\n        قدم تقييمًا من 1 إلى 5 نجوم ومراجعة موجزة ومنطقية باللغة العربية تبرر تقييمك.\n        خذ في الاعتبار جوانب مثل الوضوح، والبنية، والعمق، والجودة الشاملة.\n\n        ---\n        النص للتقييم:\n        "
def tpl_rate_1 : Str := strOf "\n        ---\n    "
def tpl_rateOut_0 : Str := strOf "### تقييم المحتوى\n\n**التقييم:** "
def tpl_rateOut_1 : Str := strOf " ("
def tpl_rateOut_2 : Str := strOf "/5)\n\n**المراجعة:**\n"


/-- Decimal rendering of the interpolated question count. -/
def natToStr (n : Nat) : Str := (toString n).data

/-- Prompt constructions of the domain operations: a fixed template with the
input (or a fixed-length prefix of it) interpolated. -/
def analysisPrompt (c : Str) : Str := tpl_analysis_0 ++ c.take 100000 ++ tpl_analysis_1

def categorizePrompt (c : Str) : Str := tpl_categorize_0 ++ c.take 8000 ++ tpl_categorize_1

def summarizePrompt (c : Str) : Str := tpl_summarize_0 ++ c.take 100000 ++ tpl_summarize_1

def quizPrompt (n : Nat) (c : Str) : Str :=
  tpl_quiz_0 ++ natToStr n ++ tpl_quiz_1 ++ c.take 100000 ++ tpl_quiz_2

def sentimentPrompt (c : Str) : Str := tpl_sentiment_0 ++ c.take 100000 ++ tpl_sentiment_1

def keywordsPrompt (c : Str) : Str := tpl_keywords_0 ++ c.take 100000 ++ tpl_keywords_1

def translateEnPrompt (c : Str) : Str := tpl_translateEn_0 ++ c

def translateArPrompt (c : Str) : Str := tpl_translateAr_0 ++ c

def bookDescPrompt (c : Str) : Str := tpl_bookDesc_0 ++ c.take 4000 ++ tpl_bookDesc_1

def videoDescPrompt (t : Str) : Str := tpl_videoDesc_0 ++ t ++ tpl_videoDesc_1

def bookTitlePrompt (c : Str) : Str := tpl_bookTitle_0 ++ c.take 4000 ++ tpl_bookTitle_1

def scriptPrompt (title description : Str) : Str :=
  tpl_script_0 ++ title ++ tpl_script_1 ++ description ++ tpl_script_2

def suggestionsPrompt (c : Str) : Str := tpl_suggestions_0 ++ c.take 8000 ++ tpl_suggestions_1

def articlePrompt (c : Str) : Str := tpl_article_0 ++ c.take 100000 ++ tpl_article_1

def ratePrompt (c : Str) : Str := tpl_rate_0 ++ c.take 100000 ++ tpl_rate_1

/-- Property lookup on a decoded JSON value: objects yield their field, all
other values yield `undefined` (modelled `none`).  Dereferencing `null`
throws in JavaScript: the quiz validation models that throw explicitly
(`quizItemCheck`), and in the sentiment and rating validations a null value
already fails the preceding truthiness conjunct, so the value of this
lookup is immaterial there (in JavaScript the read is short-circuited
away). -/
def Json.field (j : Json) (k : Str) : Option Json :=
  match j with
  | .obj fs => List.lookup k fs
  | _ => none

/-- The `typeof x` test for strings. -/
def Json.isStr : Json → Bool
  | .str _ => true
  | _ => false

/-- The value of a decoded string item (only used under an `isStr` guard). -/
def Json.asStr : Json → Str
  | .str s => s
  | _ => []

/-- JavaScript truthiness of a decoded JSON value. -/
def Json.truthy : Json → Bool
  | .null => false
  | .bool b => b
  | .num q => decide (q ≠ 0)
  | .str s => !s.isEmpty
  | .arr _ => true
  | .obj _ => true

/-- The raw text carried by a free-text invocation result (a free-text
invocation always returns `GemValue.text`). -/
def GemValue.asText : GemValue → Str
  | .text s => s
  | .json _ => []

/-- The `Array.isArray(result) && result.every(item => typeof item ===
string)` validation shared by categorization, keywords and suggestions. -/
def stringArray (j : Json) : Option (List Str) :=
  match j with
  | .arr xs => if xs.all Json.isStr then some (xs.map Json.asStr) else none
  | _ => none

def quizFormatErr : JsError :=
  ⟨true, strOf "فشل النموذج في إنشاء اختبار بالتنسيق الصحيح."⟩

def sentimentFormatErr : JsError :=
  ⟨true, strOf "فشل النموذج في تحليل المشاعر بالتنسيق الصحيح."⟩

def keywordsFormatErr : JsError :=
  ⟨true, strOf "فشل النموذج في استخراج الكلمات الرئيسية بالتنسيق الصحيح."⟩

def suggestionsFormatErr : JsError :=
  ⟨true, strOf "فشل النموذج في إنشاء اقتراحات بالتنسيق الصحيح."⟩

def noSentimentErr : JsError := ⟨true, strOf "لا يوجد محتوى لتحليل المشاعر."⟩

def ratingWrapErr : JsError := ⟨true, strOf "حدث خطأ أثناء إنشاء تقييم المحتوى."⟩

/-- The `categorizeContent` operation: empty input yields no categories with
no invocation; shape-invalid results and all caught errors degrade to an
empty list. -/
def categorizeContent (w : World) (content : Str) :
    Except JsError (List Str) × World × Trace :=
  if content.isEmpty then (.ok [], w, [])
  else
    match callGeminiWithRetry w (categorizePrompt content) true with
    | (.ok (.json j), w', tr) =>
      match stringArray j with
      | some cs => (.ok cs, w', tr)
      | none => (.ok [], w', tr)
    | (.ok (.text _), w', tr) => (.ok [], w', tr)
    | (.error _, w', tr) => (.ok [], w', tr)

/-- The `analyzeTextContent` operation: an analysis invocation and a nested
categorization, joined; the categorization part never rejects. -/
def analyzeTextContent (w : World) (content : Str) :
    Except JsError (Str × List Str) × World × Trace :=
  if content.isEmpty then
    (.ok (strOf "الملف فارغ أو لا يمكن قراءة المحتوى.", []), w, [])
  else
    let r1 := callGeminiWithRetry w (analysisPrompt content) false
    let r2 := categorizeContent r1.2.1 content
    match r1.1, r2.1 with
    | .error e, _ => (.error e, r2.2.1, r1.2.2 ++ r2.2.2)
    | .ok _, .error e => (.error e, r2.2.1, r1.2.2 ++ r2.2.2)
    | .ok v, .ok cats => (.ok (v.asText, cats), r2.2.1, r1.2.2 ++ r2.2.2)

/-- The catch-block classification of the streaming summarizer in
`geminiService.ts`. -/
def classifyStreamTs (e : JsError) : JsError :=
  if e.isError &&
      (strIncludes (strOf "Gemini API") e.message ||
       e.message == strOf "API_KEY_MISSING") then e
  else if e.isError then
    ⟨true, strOf "فشل الاتصال بـ Gemini API أثناء التلخيص: " ++ e.message⟩
  else ⟨true, strOf "فشل الاتصال بـ Gemini API أثناء التلخيص."⟩

/-- The `summarizeContent` streaming operation, modelled as the list of
fragments the generator yields together with the error, if any, ending it.
The handle is obtained before the empty-content check; blank chunks are
skipped. -/
def summarizeContent (w : World) (content : Str) :
    (List Str × Option JsError) × World × Trace :=
  match getAiInstance w with
  | (.error e, w', tr) => (([], some e), w', tr)
  | (.ok _, w', tr) =>
    if content.isEmpty then (([strOf "لا يوجد محتوى لتلخيصه."], none), w', tr)
    else
      let p := summarizePrompt content
      let chunks := (w.streamOracle p).filterMap fun t? =>
        match t? with
        | some t => if t.isEmpty then none else some t
        | none => none
      match w.streamErr p with
      | none => ((chunks, none), w', tr ++ [Event.streamRequest p])
      | some e => ((chunks, some (classifyStreamTs e)), w', tr ++ [Event.streamRequest p])

/-- The three per-item checks of the `every` callback of `createQuiz`, for
a non-null item (a null item throws before any check; see
`quizItemCheck`): a string question, an options array of length exactly 4,
and an answer index for which `typeof` yields "number" (integrality is not
checked). -/
def quizItemOk (j : Json) : Bool :=
  (match j.field (strOf "question") with
   | some (.str _) => true
   | _ => false) &&
  (match j.field (strOf "options") with
   | some (.arr os) => os.length == 4
   | _ => false) &&
  (match j.field (strOf "correctAnswerIndex") with
   | some (.num _) => true
   | _ => false)

/-- The TypeError thrown by reading a property of a JSON null item, as the
callback of `createQuiz` does on its first property read when the item is
null.  The message text is platform-dependent; only the identity of the
error matters here. -/
def nullPropertyTypeError : JsError := ⟨true, strOf "Cannot read properties of null"⟩

/-- One evaluation of the `every` callback of `createQuiz` on a decoded
item: a null item throws a TypeError at the first property read; any other
item evaluates the three checks of `quizItemOk` (property reads on non-null
values never throw). -/
def quizItemCheck (j : Json) : Except JsError Bool :=
  match j with
  | .null => .error nullPropertyTypeError
  | _ => .ok (quizItemOk j)

/-- The `result.every(...)` loop of `createQuiz`: items are checked left to
right, stopping at the first thrown TypeError or the first failing item. -/
def quizEvery : List Json → Except JsError Bool
  | [] => .ok true
  | j :: rest =>
    match quizItemCheck j with
    | .error e => .error e
    | .ok true => quizEvery rest
    | .ok false => .ok false

/-- The result validation of `createQuiz`: `Array.isArray(result)` followed
by the `every` loop; a TypeError thrown inside the loop propagates uncaught
(createQuiz has no catch). -/
def validateQuiz (j : Json) : Except JsError (List Json) :=
  match j with
  | .arr xs =>
    match quizEvery xs with
    | .error e => .error e
    | .ok true => .ok xs
    | .ok false => .error quizFormatErr
  | _ => .error quizFormatErr

/-- The `createQuiz` operation. -/
def createQuiz (w : World) (content : Str) (questionCount : Nat) :
    Except JsError (List Json) × World × Trace :=
  if content.isEmpty then (.ok [], w, [])
  else
    match callGeminiWithRetry w (quizPrompt questionCount content) true with
    | (.ok (.json j), w', tr) => (validateQuiz j, w', tr)
    | (.ok (.text _), w', tr) => (.error quizFormatErr, w', tr)
    | (.error e, w', tr) => (.error e, w', tr)

/-- The result validation of `analyzeSentiment`. -/
def sentimentOk (j : Json) : Bool :=
  j.truthy &&
  (match j.field (strOf "sentiment") with
   | some (.str _) => true
   | _ => false) &&
  (match j.field (strOf "explanation") with
   | some (.str _) => true
   | _ => false)

/-- The `analyzeSentiment` operation: empty input raises an error (there is
no default value for this operation). -/
def analyzeSentiment (w : World) (content : Str) :
    Except JsError Json × World × Trace :=
  if content.isEmpty then (.error noSentimentErr, w, [])
  else
    match callGeminiWithRetry w (sentimentPrompt content) true with
    | (.ok (.json j), w', tr) =>
      if sentimentOk j then (.ok j, w', tr) else (.error sentimentFormatErr, w', tr)
    | (.ok (.text _), w', tr) => (.error sentimentFormatErr, w', tr)
    | (.error e, w', tr) => (.error e, w', tr)

/-- The `extractKeywords` operation. -/
def extractKeywords (w : World) (content : Str) :
    Except JsError (List Str) × World × Trace :=
  if content.isEmpty then (.ok [], w, [])
  else
    match callGeminiWithRetry w (keywordsPrompt content) true with
    | (.ok (.json j), w', tr) =>
      match stringArray j with
      | some ks => (.ok ks, w', tr)
      | none => (.error keywordsFormatErr, w', tr)
    | (.ok (.text _), w', tr) => (.error keywordsFormatErr, w', tr)
    | (.error e, w', tr) => (.error e, w', tr)

/-- The `translateToEnglish` operation: embeds the full input. -/
def translateToEnglish (w : World) (content : Str) :
    Except JsError Str × World × Trace :=
  if content.isEmpty then (.ok (strOf "لا يوجد محتوى لترجمته."), w, [])
  else
    match callGeminiWithRetry w (translateEnPrompt content) false with
    | (.ok v, w', tr) => (.ok v.asText, w', tr)
    | (.error e, w', tr) => (.error e, w', tr)

/-- The `translateToArabic` operation: embeds the full input. -/
def translateToArabic (w : World) (content : Str) :
    Except JsError Str × World × Trace :=
  if content.isEmpty then (.ok (strOf "لا يوجد محتوى لترجمته."), w, [])
  else
    match callGeminiWithRetry w (translateArPrompt content) false with
    | (.ok v, w', tr) => (.ok v.asText, w', tr)
    | (.error e, w', tr) => (.error e, w', tr)

/-- The `generateBookDescription` operation. -/
def generateBookDescription (w : World) (content : Str) :
    Except JsError Str × World × Trace :=
  if content.isEmpty then (.ok (strOf "لا يمكن إنشاء وصف لمحتوى فارغ."), w, [])
  else
    match callGeminiWithRetry w (bookDescPrompt content) false with
    | (.ok v, w', tr) => (.ok v.asText, w', tr)
    | (.error e, w', tr) => (.error e, w', tr)

/-- The `generateVideoDescription` operation: embeds the full title. -/
def generateVideoDescription (w : World) (title : Str) :
    Except JsError Str × World × Trace :=
  if title.isEmpty then (.ok (strOf "وصف غير متوفر."), w, [])
  else
    match callGeminiWithRetry w (videoDescPrompt title) false with
    | (.ok v, w', tr) => (.ok v.asText, w', tr)
    | (.error e, w', tr) => (.error e, w', tr)

/-- The `extractBookTitle` operation. -/
def extractBookTitle (w : World) (content : Str) :
    Except JsError Str × World × Trace :=
  if content.isEmpty then (.ok (strOf "عنوان غير معروف"), w, [])
  else
    match callGeminiWithRetry w (bookTitlePrompt content) false with
    | (.ok v, w', tr) => (.ok v.asText, w', tr)
    | (.error e, w', tr) => (.error e, w', tr)

/-- The `generateScriptFromInfo` operation: there is no empty-input guard;
a request is issued for every input. -/
def generateScriptFromInfo (w : World) (title description : Str) :
    Except JsError Str × World × Trace :=
  match callGeminiWithRetry w (scriptPrompt title description) false with
  | (.ok v, w', tr) => (.ok v.asText, w', tr)
  | (.error e, w', tr) => (.error e, w', tr)

/-- The `generateContentSuggestions` operation. -/
def generateContentSuggestions (w : World) (content : Str) :
    Except JsError (List Str) × World × Trace :=
  if content.isEmpty then (.ok [], w, [])
  else
    match callGeminiWithRetry w (suggestionsPrompt content) true with
    | (.ok (.json j), w', tr) =>
      match stringArray j with
      | some ss => (.ok ss, w', tr)
      | none => (.error suggestionsFormatErr, w', tr)
    | (.ok (.text _), w', tr) => (.error suggestionsFormatErr, w', tr)
    | (.error e, w', tr) => (.error e, w', tr)

/-- The `designArticleFromContent` operation. -/
def designArticleFromContent (w : World) (content : Str) :
    Except JsError Str × World × Trace :=
  if content.isEmpty then (.ok (strOf "لا يمكن تصميم مقال من محتوى فارغ."), w, [])
  else
    match callGeminiWithRetry w (articlePrompt content) false with
    | (.ok v, w', tr) => (.ok v.asText, w', tr)
    | (.error e, w', tr) => (.error e, w', tr)

/-- The result validation of `rateContent`. -/
def ratingOk (j : Json) : Bool :=
  j.truthy &&
  (match j.field (strOf "rating") with
   | some (.num _) => true
   | _ => false) &&
  (match j.field (strOf "review") with
   | some (.str _) => true
   | _ => false)

/-- JavaScript `Math.min` on (non-NaN) numbers. -/
def jsMin (a b : ℚ) : ℚ := if a ≤ b then a else b

/-- JavaScript `Math.max` on (non-NaN) numbers. -/
def jsMax (a b : ℚ) : ℚ := if a ≤ b then b else a

/-- Exact subtraction of JavaScript numbers (exact for the values at play
here, which are small and representable). -/
def ratSub (a b : ℚ) : ℚ := mkRat (a.num * (b.den : ℤ) - b.num * (a.den : ℤ)) (a.den * b.den)

/-- The clamp `Math.max(1, Math.min(5, result.rating))`. -/
def clampRating (q : ℚ) : ℚ := jsMax 1 (jsMin 5 q)

/-- JavaScript `String.prototype.repeat` with a numeric count: the count is
converted by truncation toward zero.  The counts used by `rateContent` are
nonnegative, where truncation agrees with the floor used here. -/
def jsRepeat (ch : Char) (q : ℚ) : Str := List.replicate q.floor.toNat ch

/-- The decoded numeric rating (only used under a `ratingOk` guard). -/
def ratingNum (j : Json) : ℚ :=
  match j.field (strOf "rating") with
  | some (.num q) => q
  | _ => 0

/-- The decoded review text (only used under a `ratingOk` guard). -/
def reviewStr (j : Json) : Str :=
  match j.field (strOf "review") with
  | some (.str s) => s
  | _ => []

/-- The formatted output of `rateContent`: the clamped rating drives both the
star row and the interpolated numeral. -/
def rateOutput (w : World) (j : Json) : Str :=
  let rating := clampRating (ratingNum j)
  let stars := jsRepeat '★' rating ++ jsRepeat '☆' (ratSub 5 rating)
  tpl_rateOut_0 ++ stars ++ tpl_rateOut_1 ++ w.numToStr rating ++ tpl_rateOut_2 ++ reviewStr j

/-- The `rateContent` operation: its catch block wraps every failure
(including credential errors) into one generic rating error. -/
def rateContent (w : World) (content : Str) :
    Except JsError Str × World × Trace :=
  if content.isEmpty then (.ok (strOf "لا يوجد محتوى لتقييمه."), w, [])
  else
    match callGeminiWithRetry w (ratePrompt content) true with
    | (.ok (.json j), w', tr) =>
      if ratingOk j then (.ok (rateOutput w j), w', tr)
      else (.error ratingWrapErr, w', tr)
    | (.ok (.text _), w', tr) => (.error ratingWrapErr, w', tr)
    | (.error _, w', tr) => (.error ratingWrapErr, w', tr)



/-! ### String lemmas for the code-fence equivalence -/

/-- The specification example shape: a structured payload wrapped in
code-fence markers. -/
def wrapJson (t : Str) : Str := strOf "```json\n" ++ t ++ strOf "\n```"

lemma jsWs_nl : jsWs '\n' = true := by decide

lemma jsWs_tick : jsWs '`' = false := by decide

lemma dropWhile_eq_self_of_prefix {p : Char → Bool} {l x : Str}
    (hl : l.dropWhile p = l) (hx : x <+: l) : x.dropWhile p = x := by
  cases x with
  | nil => rfl
  | cons c cs =>
    obtain ⟨r, hr⟩ := hx
    subst hr
    have hc := List.dropWhile_eq_self_iff.mp hl (by simp)
    simp only [List.cons_append, List.get] at hc
    exact List.dropWhile_cons_of_neg hc

lemma jsTrim_idem (s : Str) : jsTrim (jsTrim s) = jsTrim s := by
  unfold jsTrim
  have h2 : ((s.dropWhile jsWs).rdropWhile jsWs).dropWhile jsWs
      = (s.dropWhile jsWs).rdropWhile jsWs :=
    dropWhile_eq_self_of_prefix (List.dropWhile_idempotent _ _) (List.rdropWhile_prefix _ _)
  rw [h2, List.rdropWhile_idempotent]

lemma stripJsonFence_wrap (t : Str) :
    stripJsonFence (wrapJson t) =
      if (t.dropWhile jsWs).isEmpty then [] else t.dropWhile jsWs ++ ['\n'] := by
  have hpre : (strOf "```json").isPrefixOf (wrapJson t) = true := rfl
  have hdrop : ((wrapJson t).drop 7).dropWhile jsWs
      = (t ++ strOf "\n```").dropWhile jsWs := by
    have h : (wrapJson t).drop 7 = '\n' :: (t ++ strOf "\n```") := by
      show (strOf "```json\n" ++ t ++ strOf "\n```").drop 7 = _
      rw [List.append_assoc]
      rfl
    rw [h, List.dropWhile_cons_of_pos jsWs_nl]
  by_cases he : (t.dropWhile jsWs).isEmpty
  · have ht : t.dropWhile jsWs = [] := List.isEmpty_iff.mp he
    have h1 : ((wrapJson t).drop 7).dropWhile jsWs = strOf "```" := by
      rw [hdrop, List.dropWhile_append, if_pos (by simp [ht])]
      rfl
    simp only [stripJsonFence]
    rw [if_pos hpre, h1, ht]
    decide
  · have h1 : ((wrapJson t).drop 7).dropWhile jsWs
        = t.dropWhile jsWs ++ strOf "\n```" := by
      rw [hdrop, List.dropWhile_append, if_neg he]
    have hsplit : t.dropWhile jsWs ++ strOf "\n```"
        = (((t.dropWhile jsWs ++ ['\n']) ++ ['`']) ++ ['`']) ++ ['`'] := by
      simp [strOf]
    have hu : (t.dropWhile jsWs ++ strOf "\n```").rdropWhile jsWs
        = t.dropWhile jsWs ++ strOf "\n```" := by
      rw [hsplit, List.rdropWhile_concat_neg jsWs _ _ (by simp [jsWs_tick]), ← hsplit]
    have hsuf : (strOf "```").isSuffixOf (t.dropWhile jsWs ++ strOf "\n```") = true := by
      show List.isPrefixOf (strOf "```").reverse
        (t.dropWhile jsWs ++ strOf "\n```").reverse = true
      rw [List.reverse_append]
      rfl
    have hr3 : (t.dropWhile jsWs ++ strOf "\n```").rdrop 3 = t.dropWhile jsWs ++ ['\n'] := by
      rw [hsplit, List.rdrop_concat_succ, List.rdrop_concat_succ, List.rdrop_concat_succ,
        List.rdrop_zero]
    simp only [stripJsonFence]
    rw [if_pos hpre, h1, hu, if_pos hsuf, hr3, if_neg he]

lemma strip_wrap (t : Str) : jsTrim (stripJsonFence (wrapJson t)) = jsTrim t := by
  rw [stripJsonFence_wrap]
  by_cases he : (t.dropWhile jsWs).isEmpty
  · rw [if_pos he]
    have ht : t.dropWhile jsWs = [] := List.isEmpty_iff.mp he
    unfold jsTrim
    rw [ht]
    rfl
  · rw [if_neg he]
    unfold jsTrim
    have hne : ¬((t.dropWhile jsWs).dropWhile jsWs).isEmpty = true := by
      rw [List.dropWhile_idempotent]
      exact he
    have hfront : (t.dropWhile jsWs ++ ['\n']).dropWhile jsWs
        = t.dropWhile jsWs ++ ['\n'] := by
      rw [List.dropWhile_append, if_neg hne, List.dropWhile_idempotent]
    rw [hfront, List.rdropWhile_concat_pos jsWs _ _ jsWs_nl]

/-- The successful value of a decode attempt, if any. -/
def exceptValue {α : Type} (r : Except JsError α) : Option α :=
  match r with
  | .ok v => some v
  | .error _ => none


/-- A concrete whitespace-insensitive parser, used to instantiate the decode
equivalence at a closed input. -/
def parseEmptyArr (s : Str) : Option Json :=
  if jsTrim s = strOf "[]" then some (Json.arr []) else none

/-- C6: for every text t, decoding the code-fenced structured response
built from t through the fence-stripping decode step of the invoke wrapper
yields the same parsed value as parsing the unwrapped text t directly, for
every parser (such as JSON.parse) that ignores surrounding whitespace and
rejects the empty string. -/
theorem c6_code_fence_equiv (parse : Str → Option Json) (t : Str)
    (hws : ∀ s, parse (jsTrim s) = parse s) (hnil : parse [] = none) :
    exceptValue (decodeStructured parse (wrapJson t)) = parse t := by
  simp only [decodeStructured]
  rw [strip_wrap]
  by_cases h : (jsTrim t).isEmpty
  · have ht : jsTrim t = [] := List.isEmpty_iff.mp h
    rw [if_pos h, ← hws t, ht, hnil]
    rfl
  · rw [if_neg h, ← hws t]
    cases hp : parse (jsTrim t) with
    | none => rfl
    | some j => rfl

/-- Closed witness of the decode equivalence at a concrete fenced payload. -/
theorem c6_code_fence_equiv_witness :
    exceptValue (decodeStructured parseEmptyArr (wrapJson (strOf "[]")))
      = parseEmptyArr (strOf "[]") :=
  c6_code_fence_equiv parseEmptyArr (strOf "[]")
    (fun s => by simp only [parseEmptyArr, jsTrim_idem])
    rfl

/-! ### Retry loop lemmas -/

lemma getAiInstance_cached (w : World) (h : Handle) (hai : w.ai = some h) :
    getAiInstance w = (.ok h, w, []) := by
  unfold getAiInstance
  rw [hai]

lemma getAiInstanceP0_cached (w : World) (h : Handle) (hai : w.ai = some h) :
    getAiInstanceP0 w = (.ok h, w, []) := by
  unfold getAiInstanceP0
  rw [hai]

lemma retry_all_fail (pm : Str) (isJson : Bool) (parse : Str → Option Json)
    (oracle : Nat → AttemptOutcome) (classify : JsError → JsError) (e : Nat → JsError)
    (hfail : ∀ i, i < 3 → runAttempt isJson parse (oracle i) = .error (e i)) :
    retryLoop pm isJson parse oracle classify 3 0 =
      (.error (classify (e 2)),
       [Event.request pm, Event.sleep 1000, Event.request pm, Event.sleep 1000,
        Event.request pm]) := by
  have h0 := hfail 0 (by norm_num)
  have h1' : runAttempt isJson parse (oracle (0 + 1)) = Except.error (e 1) :=
    hfail 1 (by norm_num)
  have h2' : runAttempt isJson parse (oracle (0 + 1 + 1)) = Except.error (e 2) :=
    hfail 2 (by norm_num)
  have s2 : retryLoop pm isJson parse oracle classify 1 (0 + 1 + 1)
      = (.error (classify (e 2)), [Event.request pm]) := by
    show retryLoop pm isJson parse oracle classify (0 + 1) (0 + 1 + 1) = _
    rw [retryLoop, h2']
    rfl
  have s1 : retryLoop pm isJson parse oracle classify 2 (0 + 1)
      = (.error (classify (e 2)),
         [Event.request pm, Event.sleep 1000, Event.request pm]) := by
    show retryLoop pm isJson parse oracle classify (1 + 1) (0 + 1) = _
    rw [retryLoop, h1']
    show ((retryLoop pm isJson parse oracle classify 1 (0 + 1 + 1)).1,
        Event.request pm :: Event.sleep 1000 ::
          (retryLoop pm isJson parse oracle classify 1 (0 + 1 + 1)).2) = _
    rw [s2]
  show retryLoop pm isJson parse oracle classify (2 + 1) 0 = _
  rw [retryLoop, h0]
  show ((retryLoop pm isJson parse oracle classify 2 (0 + 1)).1,
      Event.request pm :: Event.sleep 1000 ::
        (retryLoop pm isJson parse oracle classify 2 (0 + 1)).2) = _
  rw [s1]

lemma callGemini_all_fail (w : World) (p : Str) (isJson : Bool) (h : Handle)
    (e : Nat → JsError) (hai : w.ai = some h)
    (hfail : ∀ i, i < 3 → runAttempt isJson w.parse (w.oracle p i) = .error (e i)) :
    callGeminiWithRetry w p isJson =
      (.error (classifyTs (e 2)), w,
       [Event.request p, Event.sleep 1000, Event.request p, Event.sleep 1000,
        Event.request p]) := by
  unfold callGeminiWithRetry
  rw [getAiInstance_cached w h hai,
    retry_all_fail p isJson w.parse (w.oracle p) classifyTs e hfail]
  rfl

lemma callGeminiP0_all_fail (w : World) (p : Str) (isJson : Bool) (h : Handle)
    (e : Nat → JsError) (hai : w.ai = some h)
    (hfail : ∀ i, i < 3 → runAttempt isJson w.parse (w.oracle p i) = .error (e i)) :
    callGeminiWithRetryP0 w p isJson =
      (.error (classifyP0 (e 2)), w,
       [Event.request p, Event.sleep 1000, Event.request p, Event.sleep 1000,
        Event.request p]) := by
  unfold callGeminiWithRetryP0
  rw [getAiInstanceP0_cached w h hai,
    retry_all_fail p isJson w.parse (w.oracle p) classifyP0 e hfail]
  rfl

/-- C1: for every prompt and configuration, when the handle is available and
every attempt fails, the invoke wrapper issues exactly 3 requests before
raising an exhaustion-stage error, with a fixed 1000 ms delay between any two
consecutive failed attempts and no delay after the final failure. -/
theorem c1_retry_three_attempts (w : World) (p : Str) (isJson : Bool)
    (h : Handle) (e : Nat → JsError) (hai : w.ai = some h)
    (hfail : ∀ i, i < 3 → runAttempt isJson w.parse (w.oracle p i) = .error (e i)) :
    callGeminiWithRetry w p isJson =
      (.error (classifyTs (e 2)), w,
       [Event.request p, Event.sleep 1000, Event.request p, Event.sleep 1000,
        Event.request p]) :=
  callGemini_all_fail w p isJson h e hai hfail

/-- A witness world: handle cached, every request rejects with a plain
transport error. -/
def wBoom : World :=
  { ai := some ⟨strOf "k"⟩
    env := none
    store := none
    mkClient := fun k => some ⟨k⟩
    parse := fun _ => none
    oracle := fun _ _ => .throwErr ⟨true, strOf "boom"⟩
    streamOracle := fun _ => []
    streamErr := fun _ => none
    numToStr := fun _ => [] }

/-- Closed witness of the 3-attempt trace at a concrete failing world. -/
theorem c1_retry_three_attempts_witness :
    callGeminiWithRetry wBoom (strOf "p") false =
      (.error (classifyTs ⟨true, strOf "boom"⟩), wBoom,
       [Event.request (strOf "p"), Event.sleep 1000, Event.request (strOf "p"),
        Event.sleep 1000, Event.request (strOf "p")]) :=
  c1_retry_three_attempts wBoom (strOf "p") false ⟨strOf "k"⟩
    (fun _ => ⟨true, strOf "boom"⟩) rfl (fun _ _ => rfl)

/-- C2 (amended): on exhaustion, the wrapper of geminiService.ts re-raises
the terminal error itself exactly when it is an Error whose message contains
"Gemini API", "استجابة فارغة" or "JSON" or equals "API_KEY_MISSING", and
otherwise raises the generic exhaustion error (a remote authentication
rejection is not specially recognized there); the wrapper of part_000
replaces an authentication-shaped terminal error (message containing
"API key not valid" or "API_KEY_MISSING") by a fresh API_KEY_MISSING error,
re-raises the other curated kinds unchanged, and otherwise raises the
generic exhaustion error. -/
theorem c2_exhaustion_classification (w : World) (p : Str) (isJson : Bool)
    (h : Handle) (e : Nat → JsError) (hai : w.ai = some h)
    (hfail : ∀ i, i < 3 → runAttempt isJson w.parse (w.oracle p i) = .error (e i)) :
    (curatedTs (e 2) = true →
      (callGeminiWithRetry w p isJson).1 = .error (e 2)) ∧
    (curatedTs (e 2) = false →
      (callGeminiWithRetry w p isJson).1 = .error connExhaustedErr) ∧
    (authLikeP0 (e 2) = true →
      (callGeminiWithRetryP0 w p isJson).1 = .error apiKeyMissingErr) ∧
    (authLikeP0 (e 2) = false → curatedP0 (e 2) = true →
      (callGeminiWithRetryP0 w p isJson).1 = .error (e 2)) ∧
    (authLikeP0 (e 2) = false → curatedP0 (e 2) = false →
      (callGeminiWithRetryP0 w p isJson).1 = .error connExhaustedErr) := by
  rw [callGemini_all_fail w p isJson h e hai hfail,
    callGeminiP0_all_fail w p isJson h e hai hfail]
  refine ⟨fun hc => ?_, fun hc => ?_, fun ha => ?_, fun ha hc => ?_, fun ha hc => ?_⟩
  · simp [classifyTs, hc]
  · simp [classifyTs, hc]
  · simp [classifyP0, ha]
  · simp [classifyP0, ha, hc]
  · simp [classifyP0, ha, hc]

/-- The terminal error of the C2 counterexample: a remote authentication
rejection. -/
def authRejErr : JsError :=
  ⟨true, strOf "API key not valid. Please pass a valid API key."⟩

/-- The C2 counterexample world: every request rejects with an
authentication rejection. -/
def wAuthRej : World := { wBoom with oracle := fun _ _ => .throwErr authRejErr }

/-- C2 counterexample: when every attempt fails with a remote authentication
rejection, geminiService.ts raises the generic exhaustion error rather than
that error unchanged, and part_000 raises a fresh API_KEY_MISSING error
rather than that error unchanged. -/
theorem c2_counterexample :
    (callGeminiWithRetry wAuthRej (strOf "p") false).1 = .error connExhaustedErr ∧
    (callGeminiWithRetryP0 wAuthRej (strOf "p") false).1 = .error apiKeyMissingErr ∧
    connExhaustedErr ≠ authRejErr ∧ apiKeyMissingErr ≠ authRejErr :=
  ⟨rfl, rfl, by decide, by decide⟩

/-- Closed witness of the exhaustion classification: a plain transport
error is not curated, so the generic exhaustion error is raised. -/
theorem c2_exhaustion_classification_witness :
    (callGeminiWithRetry wBoom (strOf "p") false).1 = .error connExhaustedErr :=
  (c2_exhaustion_classification wBoom (strOf "p") false ⟨strOf "k"⟩
    (fun _ => ⟨true, strOf "boom"⟩) rfl (fun _ _ => rfl)).2.1 rfl

/-- C9: after a call to getAiInstance succeeds, a subsequent call returns the
identical cached handle, leaves the state unchanged, and performs no
credential reads and no construction (the trace of the second call is
empty). -/
theorem c9_memoized_handle (w w' : World) (h : Handle) (tr : Trace)
    (hfirst : getAiInstance w = (.ok h, w', tr)) :
    getAiInstance w' = (.ok h, w', []) := by
  have hai : w'.ai = some h := by
    cases hw : w.ai with
    | some a =>
      rw [getAiInstance_cached w a hw] at hfirst
      simp only [Prod.mk.injEq, Except.ok.injEq] at hfirst
      obtain ⟨rfl, rfl, _⟩ := hfirst
      exact hw
    | none =>
      simp only [getAiInstance, hw] at hfirst
      split at hfirst
      · simp at hfirst
      · split at hfirst
        · simp only [Prod.mk.injEq, Except.ok.injEq] at hfirst
          obtain ⟨rfl, rfl, _⟩ := hfirst
          rfl
        · simp at hfirst
  exact getAiInstance_cached w' h hai

/-- A witness world with no cached handle and an environment credential. -/
def wFresh : World := { wBoom with ai := none, env := some (strOf "k") }

/-- Closed witness of handle memoization after a concrete first call. -/
theorem c9_memoized_handle_witness :
    getAiInstance { wFresh with ai := some ⟨strOf "k"⟩ } =
      (.ok ⟨strOf "k"⟩, { wFresh with ai := some ⟨strOf "k"⟩ }, []) :=
  c9_memoized_handle wFresh { wFresh with ai := some ⟨strOf "k"⟩ } ⟨strOf "k"⟩
    [Event.readEnv, Event.construct (strOf "k")] rfl


/-! ### Bridge lemmas for the computable rational operations -/

lemma jsMax_eq (a b : ℚ) : jsMax a b = max a b := by
  rw [max_def, jsMax]

lemma jsMin_eq (a b : ℚ) : jsMin a b = min a b := by
  rw [min_def, jsMin]

lemma ratSub_eq (a b : ℚ) : ratSub a b = a - b := by
  have ha : ((a.den : ℚ)) ≠ 0 := by exact_mod_cast a.den_nz
  have hb : ((b.den : ℚ)) ≠ 0 := by exact_mod_cast b.den_nz
  rw [ratSub, Rat.mkRat_eq_div]
  push_cast
  conv_rhs => rw [← Rat.num_div_den a, ← Rat.num_div_den b, div_sub_div _ _ ha hb]
  ring_nf

/-! ### Claim C3: eviction of a rejected credential -/

/-- A world with no cached handle, no environment key, and a persisted
credential the constructor rejects. -/
def wBadKey : World :=
  { wBoom with ai := none, store := some (strOf "bad"), mkClient := fun _ => none }

/-- C3 counterexample: in geminiService.ts, when the resolved credential is
rejected by the constructor, the initialization-failed error is raised but
the credential remains in localStorage (the state is returned unchanged and
no removal event occurs). -/
theorem c3_counterexample :
    getAiInstance wBadKey =
      (.error initFailedErr, wBadKey,
       [Event.readEnv, Event.readLS, Event.construct (strOf "bad")]) ∧
    wBadKey.store = some (strOf "bad") :=
  ⟨rfl, rfl⟩

/-- C3 (amended): in the part_000 variant, when the persisted credential
resolves but the constructor rejects it, getAiInstance raises the
initialization-failed error and removes the credential from localStorage;
the geminiService.ts variant raises the error but leaves the credential in
place. -/
theorem c3_eviction_part000 (w : World) (k : Str)
    (hai : w.ai = none) (hs : w.store = some k) (hk : k.isEmpty = false)
    (hmk : w.mkClient k = none) :
    getAiInstanceP0 w =
      (.error initFailedErr, { w with store := none },
       [Event.readLS, Event.construct k, Event.removeLS]) := by
  cases k with
  | nil => simp at hk
  | cons c0 k' =>
    unfold getAiInstanceP0
    rw [hai, hs]
    show (match w.mkClient (c0 :: k') with
          | some h =>
            (Except.ok h, { w with ai := some h, store := some (c0 :: k') },
              [Event.readLS, Event.construct (c0 :: k')])
          | none =>
            (Except.error initFailedErr, { w with ai := none, store := none },
              [Event.readLS, Event.construct (c0 :: k'), Event.removeLS])) = _
    rw [hmk]

/-- Closed witness of the part_000 eviction at a concrete bad credential. -/
theorem c3_eviction_part000_witness :
    getAiInstanceP0 wBadKey =
      (.error initFailedErr, { wBadKey with store := none },
       [Event.readLS, Event.construct (strOf "bad"), Event.removeLS]) :=
  c3_eviction_part000 wBadKey (strOf "bad") rfl rfl rfl rfl

/-! ### Claim C4: empty-input defaults -/

/-- A world whose requests resolve with the text "ok". -/
def wOk : World := { wBoom with oracle := fun _ _ => .respond (some (strOf "ok")) }

/-- A world with no cached handle and no credential in any source. -/
def wNoKey : World := { wBoom with ai := none }

/-- C4 counterexample: on empty input, sentiment analysis raises an error
instead of returning a default; script generation has no empty-input guard
and issues a request; the streaming summarizer obtains the handle before its
empty-input check, so with no credential it raises API_KEY_MISSING instead
of yielding its placeholder (still without a remote request). -/
theorem c4_counterexample :
    analyzeSentiment wBoom [] = (.error noSentimentErr, wBoom, []) ∧
    generateScriptFromInfo wOk [] [] =
      (.ok (strOf "ok"), wOk, [Event.request (scriptPrompt [] [])]) ∧
    summarizeContent wNoKey [] =
      (([], some apiKeyMissingErr), wNoKey, [Event.readEnv, Event.readLS]) :=
  ⟨rfl, rfl, rfl⟩

/-- C4 (amended): every listed domain operation except sentiment returns its
defined default on empty input with no invocation and no side effect at all;
sentiment raises its fixed no-content error, also without any invocation;
the streaming summarizer yields its single placeholder fragment with no
request provided the handle is available (script generation, cited in the
sources, has no empty-input guard and is exercised by the counterexample). -/
theorem c4_empty_input_defaults (w : World) (h : Handle) (n : Nat)
    (hai : w.ai = some h) :
    analyzeTextContent w [] =
      (.ok (strOf "الملف فارغ أو لا يمكن قراءة المحتوى.", []), w, []) ∧
    categorizeContent w [] = (.ok [], w, []) ∧
    createQuiz w [] n = (.ok [], w, []) ∧
    extractKeywords w [] = (.ok [], w, []) ∧
    translateToEnglish w [] = (.ok (strOf "لا يوجد محتوى لترجمته."), w, []) ∧
    translateToArabic w [] = (.ok (strOf "لا يوجد محتوى لترجمته."), w, []) ∧
    generateBookDescription w [] = (.ok (strOf "لا يمكن إنشاء وصف لمحتوى فارغ."), w, []) ∧
    generateVideoDescription w [] = (.ok (strOf "وصف غير متوفر."), w, []) ∧
    extractBookTitle w [] = (.ok (strOf "عنوان غير معروف"), w, []) ∧
    generateContentSuggestions w [] = (.ok [], w, []) ∧
    designArticleFromContent w [] = (.ok (strOf "لا يمكن تصميم مقال من محتوى فارغ."), w, []) ∧
    rateContent w [] = (.ok (strOf "لا يوجد محتوى لتقييمه."), w, []) ∧
    analyzeSentiment w [] = (.error noSentimentErr, w, []) ∧
    summarizeContent w [] = (([strOf "لا يوجد محتوى لتلخيصه."], none), w, []) := by
  refine ⟨rfl, rfl, rfl, rfl, rfl, rfl, rfl, rfl, rfl, rfl, rfl, rfl, rfl, ?_⟩
  unfold summarizeContent
  rw [getAiInstance_cached w h hai]
  rfl

/-- Closed witness of the empty-input behaviour at a concrete world. -/
theorem c4_empty_input_defaults_witness :
    summarizeContent wBoom [] =
      (([strOf "لا يوجد محتوى لتلخيصه."], none), wBoom, []) :=
  (c4_empty_input_defaults wBoom ⟨strOf "k"⟩ 1
    rfl).2.2.2.2.2.2.2.2.2.2.2.2.2

/-! ### Claim C5: propagation of the credential-missing error -/

lemma callGemini_noKey (w : World) (p : Str) (isJson : Bool)
    (hmiss : getAiInstance w = (.error apiKeyMissingErr, w, [Event.readEnv, Event.readLS])) :
    callGeminiWithRetry w p isJson =
      (.error apiKeyMissingErr, w, [Event.readEnv, Event.readLS]) := by
  unfold callGeminiWithRetry
  rw [hmiss]

/-- C5 counterexample: with no credential anywhere, categorizeContent
swallows the credential-missing error and returns an empty list, and
rateContent replaces it with its generic rating error; neither surfaces the
sentinel to the caller. -/
theorem c5_counterexample :
    categorizeContent wNoKey (strOf "x") =
      (.ok [], wNoKey, [Event.readEnv, Event.readLS]) ∧
    rateContent wNoKey (strOf "x") =
      (.error ratingWrapErr, wNoKey, [Event.readEnv, Event.readLS]) ∧
    ratingWrapErr ≠ apiKeyMissingErr :=
  ⟨rfl, rfl, by decide⟩

/-- C5 (amended): a credential-missing error raised while obtaining the
handle surfaces verbatim, never retried (no request and no delay occurs),
from every domain operation except categorizeContent — which degrades it to
an empty list — and rateContent — which wraps it into its generic rating
error; combined analysis surfaces it after its categorization half has
degraded. -/
theorem c5_credential_error_propagation (w : World) (c t : Str) (n : Nat)
    (hmiss : getAiInstance w = (.error apiKeyMissingErr, w, [Event.readEnv, Event.readLS]))
    (hc : c.isEmpty = false) (ht : t.isEmpty = false) :
    createQuiz w c n = (.error apiKeyMissingErr, w, [Event.readEnv, Event.readLS]) ∧
    analyzeSentiment w c = (.error apiKeyMissingErr, w, [Event.readEnv, Event.readLS]) ∧
    extractKeywords w c = (.error apiKeyMissingErr, w, [Event.readEnv, Event.readLS]) ∧
    translateToEnglish w c = (.error apiKeyMissingErr, w, [Event.readEnv, Event.readLS]) ∧
    translateToArabic w c = (.error apiKeyMissingErr, w, [Event.readEnv, Event.readLS]) ∧
    generateBookDescription w c =
      (.error apiKeyMissingErr, w, [Event.readEnv, Event.readLS]) ∧
    generateVideoDescription w t =
      (.error apiKeyMissingErr, w, [Event.readEnv, Event.readLS]) ∧
    extractBookTitle w c = (.error apiKeyMissingErr, w, [Event.readEnv, Event.readLS]) ∧
    generateScriptFromInfo w t c =
      (.error apiKeyMissingErr, w, [Event.readEnv, Event.readLS]) ∧
    generateContentSuggestions w c =
      (.error apiKeyMissingErr, w, [Event.readEnv, Event.readLS]) ∧
    designArticleFromContent w c =
      (.error apiKeyMissingErr, w, [Event.readEnv, Event.readLS]) ∧
    summarizeContent w c = (([], some apiKeyMissingErr), w, [Event.readEnv, Event.readLS]) ∧
    analyzeTextContent w c =
      (.error apiKeyMissingErr, w,
       [Event.readEnv, Event.readLS, Event.readEnv, Event.readLS]) ∧
    categorizeContent w c = (.ok [], w, [Event.readEnv, Event.readLS]) ∧
    rateContent w c = (.error ratingWrapErr, w, [Event.readEnv, Event.readLS]) := by
  have hcat : categorizeContent w c = (.ok [], w, [Event.readEnv, Event.readLS]) := by
    unfold categorizeContent
    rw [if_neg (by simp [hc]), callGemini_noKey w _ true hmiss]
  refine ⟨?_, ?_, ?_, ?_, ?_, ?_, ?_, ?_, ?_, ?_, ?_, ?_, ?_, hcat, ?_⟩
  · unfold createQuiz
    rw [if_neg (by simp [hc]), callGemini_noKey w _ true hmiss]
  · unfold analyzeSentiment
    rw [if_neg (by simp [hc]), callGemini_noKey w _ true hmiss]
  · unfold extractKeywords
    rw [if_neg (by simp [hc]), callGemini_noKey w _ true hmiss]
  · unfold translateToEnglish
    rw [if_neg (by simp [hc]), callGemini_noKey w _ false hmiss]
  · unfold translateToArabic
    rw [if_neg (by simp [hc]), callGemini_noKey w _ false hmiss]
  · unfold generateBookDescription
    rw [if_neg (by simp [hc]), callGemini_noKey w _ false hmiss]
  · unfold generateVideoDescription
    rw [if_neg (by simp [ht]), callGemini_noKey w _ false hmiss]
  · unfold extractBookTitle
    rw [if_neg (by simp [hc]), callGemini_noKey w _ false hmiss]
  · unfold generateScriptFromInfo
    rw [callGemini_noKey w _ false hmiss]
  · unfold generateContentSuggestions
    rw [if_neg (by simp [hc]), callGemini_noKey w _ true hmiss]
  · unfold designArticleFromContent
    rw [if_neg (by simp [hc]), callGemini_noKey w _ false hmiss]
  · unfold summarizeContent
    rw [hmiss]
  · unfold analyzeTextContent
    rw [if_neg (by simp [hc]), callGemini_noKey w _ false hmiss]
    simp [hcat]
  · unfold rateContent
    rw [if_neg (by simp [hc]), callGemini_noKey w _ true hmiss]

/-- Closed witness of the credential-error propagation at a concrete world
with no credential. -/
theorem c5_credential_error_propagation_witness :
    createQuiz wNoKey (strOf "x") 1 =
      (.error apiKeyMissingErr, wNoKey, [Event.readEnv, Event.readLS]) :=
  (c5_credential_error_propagation wNoKey (strOf "x") (strOf "y") 1 rfl rfl rfl).1


/-! ### Claim C7: quiz validation -/

lemma callGemini_first_ok (w : World) (p : Str) (isJson : Bool) (h : Handle)
    (v : GemValue) (hai : w.ai = some h)
    (hatt : runAttempt isJson w.parse (w.oracle p 0) = .ok v) :
    callGeminiWithRetry w p isJson = (.ok v, w, [Event.request p]) := by
  have hloop : retryLoop p isJson w.parse (w.oracle p) classifyTs 3 0
      = (.ok v, [Event.request p]) := by
    show retryLoop p isJson w.parse (w.oracle p) classifyTs (2 + 1) 0 = _
    rw [retryLoop, hatt]
  unfold callGeminiWithRetry
  rw [getAiInstance_cached w h hai, hloop]
  rfl

lemma quizItemCheck_ne_null {j : Json} (hj : j ≠ Json.null) :
    quizItemCheck j = .ok (quizItemOk j) := by
  cases j with
  | null => exact absurd rfl hj
  | bool b => rfl
  | num q => rfl
  | str s => rfl
  | arr xs => rfl
  | obj fs => rfl

lemma quizEvery_ok_true_iff (xs : List Json) :
    quizEvery xs = .ok true ↔ ∀ x ∈ xs, quizItemCheck x = .ok true := by
  induction xs with
  | nil => simp [quizEvery]
  | cons j rest ih =>
    rw [quizEvery]
    cases hcj : quizItemCheck j with
    | error e => simp [hcj]
    | ok b =>
      cases b with
      | true => simp [hcj, ih]
      | false => simp [hcj]

lemma quizEvery_of_no_null (xs : List Json) (hnn : ∀ y ∈ xs, y ≠ Json.null) :
    quizEvery xs = .ok (xs.all quizItemOk) := by
  induction xs with
  | nil => rfl
  | cons j rest ih =>
    have hj : j ≠ Json.null := hnn j (List.mem_cons_self j rest)
    have hrest := ih fun y hy => hnn y (List.mem_cons_of_mem j hy)
    rw [quizEvery, quizItemCheck_ne_null hj]
    cases hb : quizItemOk j with
    | false => simp [hb]
    | true => simp [hb, hrest]

/-- C7 (amended): createQuiz returns the decoded array exactly when every
item passes the per-item check — a string question, an options array of
length exactly 4, and an answer index for which `typeof` yields "number"
(integrality is not checked, so a non-integral numeric index is accepted).
Among arrays of non-null items, one whose options array has length other
than 4 makes it raise the malformed-quiz error; an item that is JSON null
instead makes the validation callback throw a TypeError at its first
property read, which propagates uncaught and is distinct from the
malformed-quiz error. -/
theorem c7_quiz_validation (w : World) (c : Str) (n : Nat) (h : Handle) (j : Json)
    (hai : w.ai = some h) (hc : c.isEmpty = false)
    (hatt : runAttempt true w.parse (w.oracle (quizPrompt n c) 0) = .ok (.json j)) :
    createQuiz w c n = (validateQuiz j, w, [Event.request (quizPrompt n c)]) ∧
    (∀ xs, validateQuiz (.arr xs) = .ok xs ↔ ∀ x ∈ xs, quizItemCheck x = .ok true) ∧
    (∀ xs x, (∀ y ∈ xs, y ≠ Json.null) → x ∈ xs →
      (∀ os, x.field (strOf "options") = some (.arr os) → os.length ≠ 4) →
      validateQuiz (.arr xs) = .error quizFormatErr) ∧
    (∀ rest, validateQuiz (.arr (Json.null :: rest)) = .error nullPropertyTypeError) ∧
    nullPropertyTypeError ≠ quizFormatErr := by
  refine ⟨?_, ?_, ?_, fun rest => rfl, by decide⟩
  · unfold createQuiz
    rw [if_neg (by simp [hc]), callGemini_first_ok w _ true h (.json j) hai hatt]
  · intro xs
    rw [← quizEvery_ok_true_iff]
    cases hq : quizEvery xs with
    | error e => simp [validateQuiz, hq]
    | ok b => cases b <;> simp [validateQuiz, hq]
  · intro xs x hnn hmem hbad
    have hitem : quizItemOk x = false := by
      unfold quizItemOk
      cases hox : x.field (strOf "options") with
      | none => simp
      | some jx =>
        cases jx with
        | null => simp
        | bool b => simp
        | num q => simp
        | str s => simp
        | obj fs => simp
        | arr os =>
          have hlen : (os.length == 4) = false := by
            rw [beq_eq_false_iff_ne]
            exact hbad os hox
          simp [hlen]
    have hall : xs.all quizItemOk = false := by
      rw [List.all_eq_false]
      exact ⟨x, hmem, by simp [hitem]⟩
    simp [validateQuiz, quizEvery_of_no_null xs hnn, hall]

/-- The decoded quiz item of the C7 counterexample: well-formed except that
its answer index is the non-integral number one half. -/
def quizBadItem : Json :=
  .obj [(strOf "question", .str (strOf "q")),
        (strOf "options",
         .arr [.str (strOf "a"), .str (strOf "b"), .str (strOf "c"), .str (strOf "d")]),
        (strOf "correctAnswerIndex", .num (mkRat 1 2))]

/-- The C7 counterexample world: the decode yields one item with answer
index one half. -/
def wQuiz : World :=
  { wBoom with
    parse := fun _ => some (.arr [quizBadItem])
    oracle := fun _ _ => .respond (some (strOf "x")) }

/-- C7 counterexample: a decoded item whose answer index is the non-integer
one half passes the validation — createQuiz returns the array instead of
raising the malformed-quiz error. -/
theorem c7_counterexample :
    createQuiz wQuiz (strOf "x") 1 =
      (.ok [quizBadItem], wQuiz, [Event.request (quizPrompt 1 (strOf "x"))]) ∧
    (mkRat 1 2).den ≠ 1 :=
  ⟨rfl, by decide⟩

/-- Closed witness of the quiz validation link at a concrete decode. -/
theorem c7_quiz_validation_witness :
    createQuiz wQuiz (strOf "x") 1 =
      (validateQuiz (.arr [quizBadItem]), wQuiz,
       [Event.request (quizPrompt 1 (strOf "x"))]) :=
  (c7_quiz_validation wQuiz (strOf "x") 1 ⟨strOf "k"⟩ (.arr [quizBadItem])
    rfl rfl rfl).1

/-! ### Claim C8: rating clamp and star rendering -/

/-- A decoded rating object with the given numeric rating and review. -/
def ratingObj (q : ℚ) (rev : Str) : Json :=
  .obj [(strOf "rating", .num q), (strOf "review", .str rev)]

/-- C8 (amended): the decoded numeric rating r is clamped to
max(1, min(5, r)) and the clamped value drives the output: the output
contains floor(clamp(r)) filled marks followed by floor(5 − clamp(r)) empty
marks (the repeat count of a non-integral number is truncated); for an
integral rating those counts are exactly clamp(r) and 5 − clamp(r), and a
raw rating of 7 yields five filled and zero empty marks. -/
theorem c8_rating_clamp (w : World) (c : Str) (h : Handle) (q : ℚ) (rev : Str)
    (hai : w.ai = some h) (hc : c.isEmpty = false)
    (hatt : runAttempt true w.parse (w.oracle (ratePrompt c) 0)
      = .ok (.json (ratingObj q rev))) :
    rateContent w c =
      (.ok (tpl_rateOut_0 ++
            (List.replicate (clampRating q).floor.toNat '★' ++
             List.replicate (ratSub 5 (clampRating q)).floor.toNat '☆') ++
            tpl_rateOut_1 ++ w.numToStr (clampRating q) ++ tpl_rateOut_2 ++ rev),
       w, [Event.request (ratePrompt c)]) ∧
    clampRating q = max 1 (min 5 q) ∧
    ratSub 5 (clampRating q) = 5 - clampRating q ∧
    (q = 7 → (clampRating q).floor.toNat = 5 ∧ (ratSub 5 (clampRating q)).floor.toNat = 0) ∧
    (∀ k : ℤ, q = k →
      ((clampRating q).floor.toNat : ℚ) = clampRating q ∧
      ((ratSub 5 (clampRating q)).floor.toNat : ℚ) = 5 - clampRating q) := by
  have hfl : ∀ r : ℚ, r.floor = ⌊r⌋ := fun _ => rfl
  refine ⟨?_, ?_, ratSub_eq 5 (clampRating q), ?_, ?_⟩
  · unfold rateContent
    rw [if_neg (by simp [hc]),
      callGemini_first_ok w _ true h (.json (ratingObj q rev)) hai hatt]
    rfl
  · rw [clampRating, jsMax_eq, jsMin_eq]
  · rintro rfl
    exact ⟨by decide, by decide⟩
  · rintro k rfl
    have h1 : clampRating (k : ℚ) = ((max 1 (min 5 k) : ℤ) : ℚ) := by
      rw [clampRating, jsMax_eq, jsMin_eq]
      push_cast
      ring_nf
    have hm : (0 : ℤ) ≤ max 1 (min 5 k) :=
      le_trans zero_le_one (le_max_left _ _)
    have hm5 : max 1 (min 5 k) ≤ 5 :=
      max_le (by norm_num) (min_le_left _ _)
    constructor
    · rw [h1, hfl, Int.floor_intCast]
      exact_mod_cast Int.toNat_of_nonneg hm
    · rw [ratSub_eq, h1]
      have h2 : (5 : ℚ) - ((max 1 (min 5 k) : ℤ) : ℚ)
          = (((5 - max 1 (min 5 k) : ℤ)) : ℚ) := by
        push_cast
        ring
      rw [h2, hfl, Int.floor_intCast]
      exact_mod_cast Int.toNat_of_nonneg (by omega)

/-- The C8 witness world: the decode yields an out-of-range integral rating
of 7. -/
def wSeven : World :=
  { wBoom with
    parse := fun _ => some (ratingObj 7 (strOf "r"))
    oracle := fun _ _ => .respond (some (strOf "x"))
    numToStr := fun _ => strOf "5" }

/-- Closed witness of the rating output at the raw rating 7. -/
theorem c8_rating_clamp_witness :
    rateContent wSeven (strOf "x") =
      (.ok (tpl_rateOut_0 ++
            (List.replicate (clampRating 7).floor.toNat '★' ++
             List.replicate (ratSub 5 (clampRating 7)).floor.toNat '☆') ++
            tpl_rateOut_1 ++ wSeven.numToStr (clampRating 7) ++ tpl_rateOut_2 ++ strOf "r"),
       wSeven, [Event.request (ratePrompt (strOf "x"))]) :=
  (c8_rating_clamp wSeven (strOf "x") ⟨strOf "k"⟩ 7 (strOf "r") rfl rfl rfl).1

/-- The C8 counterexample world: the decode yields the non-integral rating
five halves. -/
def wHalf : World :=
  { wBoom with
    parse := fun _ => some (ratingObj (mkRat 5 2) (strOf "r"))
    oracle := fun _ _ => .respond (some (strOf "x"))
    numToStr := fun _ => strOf "2.5" }

/-- The output rateContent produces for the rating five halves. -/
def rateHalfOut : Str :=
  tpl_rateOut_0 ++ (List.replicate 2 '★' ++ List.replicate 2 '☆') ++
    tpl_rateOut_1 ++ strOf "2.5" ++ tpl_rateOut_2 ++ strOf "r"

/-- C8 counterexample: for the decoded numeric rating five halves (accepted
by the validation), the output carries 2 filled and 2 empty marks — 4 marks
in total — while the clamped rating is five halves, so the output does not
contain clamp(r) filled and 5 − clamp(r) empty marks. -/
theorem c8_counterexample :
    rateContent wHalf (strOf "x") =
      (.ok rateHalfOut, wHalf, [Event.request (ratePrompt (strOf "x"))]) ∧
    rateHalfOut.count '★' = 2 ∧
    rateHalfOut.count '☆' = 2 ∧
    clampRating (mkRat 5 2) = mkRat 5 2 ∧
    (2 : ℚ) ≠ mkRat 5 2 ∧ (3 : ℚ) ≠ mkRat 5 2 :=
  ⟨rfl, by decide, by decide, by decide, by decide, by decide⟩


/-! ### Claim C10: prefix determinism of the prompts -/

lemma take_agree_mono {c₁ c₂ : Str} {m n : Nat} (hmn : m ≤ n)
    (h : c₁.take n = c₂.take n) : c₁.take m = c₂.take m := by
  have h2 := congrArg (List.take m) h
  simpa [List.take_take, min_eq_left hmn] using h2

lemma isEmpty_agree {c₁ c₂ : Str} {n : Nat} (hn : 0 < n)
    (h : c₁.take n = c₂.take n) : c₁.isEmpty = c₂.isEmpty := by
  cases n with
  | zero => exact absurd hn (lt_irrefl 0)
  | succ m =>
    cases c₁ with
    | nil =>
      cases c₂ with
      | nil => rfl
      | cons b bs => simp at h
    | cons a as =>
      cases c₂ with
      | nil => simp at h
      | cons b bs => rfl

lemma categorize_congr {c₁ c₂ : Str} (h : c₁.take 8000 = c₂.take 8000) (w : World) :
    categorizeContent w c₁ = categorizeContent w c₂ := by
  have he : c₁.isEmpty = c₂.isEmpty := isEmpty_agree (by norm_num) h
  have hp : categorizePrompt c₁ = categorizePrompt c₂ := by
    unfold categorizePrompt
    rw [h]
  unfold categorizeContent
  rw [he, hp]

lemma suggestions_congr {c₁ c₂ : Str} (h : c₁.take 8000 = c₂.take 8000) (w : World) :
    generateContentSuggestions w c₁ = generateContentSuggestions w c₂ := by
  have he : c₁.isEmpty = c₂.isEmpty := isEmpty_agree (by norm_num) h
  have hp : suggestionsPrompt c₁ = suggestionsPrompt c₂ := by
    unfold suggestionsPrompt
    rw [h]
  unfold generateContentSuggestions
  rw [he, hp]

lemma bookDesc_congr {c₁ c₂ : Str} (h : c₁.take 4000 = c₂.take 4000) (w : World) :
    generateBookDescription w c₁ = generateBookDescription w c₂ := by
  have he : c₁.isEmpty = c₂.isEmpty := isEmpty_agree (by norm_num) h
  have hp : bookDescPrompt c₁ = bookDescPrompt c₂ := by
    unfold bookDescPrompt
    rw [h]
  unfold generateBookDescription
  rw [he, hp]

lemma bookTitle_congr {c₁ c₂ : Str} (h : c₁.take 4000 = c₂.take 4000) (w : World) :
    extractBookTitle w c₁ = extractBookTitle w c₂ := by
  have he : c₁.isEmpty = c₂.isEmpty := isEmpty_agree (by norm_num) h
  have hp : bookTitlePrompt c₁ = bookTitlePrompt c₂ := by
    unfold bookTitlePrompt
    rw [h]
  unfold extractBookTitle
  rw [he, hp]

lemma summarize_congr {c₁ c₂ : Str} (h : c₁.take 100000 = c₂.take 100000) (w : World) :
    summarizeContent w c₁ = summarizeContent w c₂ := by
  have he : c₁.isEmpty = c₂.isEmpty := isEmpty_agree (by norm_num) h
  have hp : summarizePrompt c₁ = summarizePrompt c₂ := by
    unfold summarizePrompt
    rw [h]
  unfold summarizeContent
  simp only [he, hp]

lemma quiz_congr {c₁ c₂ : Str} (h : c₁.take 100000 = c₂.take 100000) (n : Nat) (w : World) :
    createQuiz w c₁ n = createQuiz w c₂ n := by
  have he : c₁.isEmpty = c₂.isEmpty := isEmpty_agree (by norm_num) h
  have hp : quizPrompt n c₁ = quizPrompt n c₂ := by
    unfold quizPrompt
    rw [h]
  unfold createQuiz
  rw [he, hp]

lemma sentiment_congr {c₁ c₂ : Str} (h : c₁.take 100000 = c₂.take 100000) (w : World) :
    analyzeSentiment w c₁ = analyzeSentiment w c₂ := by
  have he : c₁.isEmpty = c₂.isEmpty := isEmpty_agree (by norm_num) h
  have hp : sentimentPrompt c₁ = sentimentPrompt c₂ := by
    unfold sentimentPrompt
    rw [h]
  unfold analyzeSentiment
  rw [he, hp]

lemma keywords_congr {c₁ c₂ : Str} (h : c₁.take 100000 = c₂.take 100000) (w : World) :
    extractKeywords w c₁ = extractKeywords w c₂ := by
  have he : c₁.isEmpty = c₂.isEmpty := isEmpty_agree (by norm_num) h
  have hp : keywordsPrompt c₁ = keywordsPrompt c₂ := by
    unfold keywordsPrompt
    rw [h]
  unfold extractKeywords
  rw [he, hp]

lemma article_congr {c₁ c₂ : Str} (h : c₁.take 100000 = c₂.take 100000) (w : World) :
    designArticleFromContent w c₁ = designArticleFromContent w c₂ := by
  have he : c₁.isEmpty = c₂.isEmpty := isEmpty_agree (by norm_num) h
  have hp : articlePrompt c₁ = articlePrompt c₂ := by
    unfold articlePrompt
    rw [h]
  unfold designArticleFromContent
  rw [he, hp]

lemma rate_congr {c₁ c₂ : Str} (h : c₁.take 100000 = c₂.take 100000) (w : World) :
    rateContent w c₁ = rateContent w c₂ := by
  have he : c₁.isEmpty = c₂.isEmpty := isEmpty_agree (by norm_num) h
  have hp : ratePrompt c₁ = ratePrompt c₂ := by
    unfold ratePrompt
    rw [h]
  unfold rateContent
  rw [he, hp]

lemma analyzeText_congr {c₁ c₂ : Str} (h : c₁.take 100000 = c₂.take 100000) (w : World) :
    analyzeTextContent w c₁ = analyzeTextContent w c₂ := by
  have he : c₁.isEmpty = c₂.isEmpty := isEmpty_agree (by norm_num) h
  have hp : analysisPrompt c₁ = analysisPrompt c₂ := by
    unfold analysisPrompt
    rw [h]
  have hcat : ∀ w' : World, categorizeContent w' c₁ = categorizeContent w' c₂ :=
    categorize_congr (take_agree_mono (by norm_num) h)
  unfold analyzeTextContent
  simp only [he, hp, hcat]

/-- C10: each listed domain operation embeds only a fixed-length prefix of
its input into the prompt — 8000 characters for categorization and content
suggestions, 4000 for book description and title extraction, 100000 for
analysis, summarization, quiz, sentiment, keywords, article design and
rating — so two inputs agreeing on that prefix produce the identical prompt
and identical operation behaviour in every world. -/
theorem c10_prefix_determinism (w : World) (c₁ c₂ : Str) (n : Nat) :
    (c₁.take 8000 = c₂.take 8000 →
      categorizePrompt c₁ = categorizePrompt c₂ ∧
      suggestionsPrompt c₁ = suggestionsPrompt c₂ ∧
      categorizeContent w c₁ = categorizeContent w c₂ ∧
      generateContentSuggestions w c₁ = generateContentSuggestions w c₂) ∧
    (c₁.take 4000 = c₂.take 4000 →
      bookDescPrompt c₁ = bookDescPrompt c₂ ∧
      bookTitlePrompt c₁ = bookTitlePrompt c₂ ∧
      generateBookDescription w c₁ = generateBookDescription w c₂ ∧
      extractBookTitle w c₁ = extractBookTitle w c₂) ∧
    (c₁.take 100000 = c₂.take 100000 →
      analysisPrompt c₁ = analysisPrompt c₂ ∧
      summarizePrompt c₁ = summarizePrompt c₂ ∧
      quizPrompt n c₁ = quizPrompt n c₂ ∧
      sentimentPrompt c₁ = sentimentPrompt c₂ ∧
      keywordsPrompt c₁ = keywordsPrompt c₂ ∧
      articlePrompt c₁ = articlePrompt c₂ ∧
      ratePrompt c₁ = ratePrompt c₂ ∧
      analyzeTextContent w c₁ = analyzeTextContent w c₂ ∧
      summarizeContent w c₁ = summarizeContent w c₂ ∧
      createQuiz w c₁ n = createQuiz w c₂ n ∧
      analyzeSentiment w c₁ = analyzeSentiment w c₂ ∧
      extractKeywords w c₁ = extractKeywords w c₂ ∧
      designArticleFromContent w c₁ = designArticleFromContent w c₂ ∧
      rateContent w c₁ = rateContent w c₂) := by
  refine ⟨fun h8 => ?_, fun h4 => ?_, fun h100 => ?_⟩
  · exact ⟨by unfold categorizePrompt; rw [h8],
      by unfold suggestionsPrompt; rw [h8],
      categorize_congr h8 w, suggestions_congr h8 w⟩
  · exact ⟨by unfold bookDescPrompt; rw [h4],
      by unfold bookTitlePrompt; rw [h4],
      bookDesc_congr h4 w, bookTitle_congr h4 w⟩
  · exact ⟨by unfold analysisPrompt; rw [h100],
      by unfold summarizePrompt; rw [h100],
      by unfold quizPrompt; rw [h100],
      by unfold sentimentPrompt; rw [h100],
      by unfold keywordsPrompt; rw [h100],
      by unfold articlePrompt; rw [h100],
      by unfold ratePrompt; rw [h100],
      analyzeText_congr h100 w, summarize_congr h100 w, quiz_congr h100 n w,
      sentiment_congr h100 w, keywords_congr h100 w, article_congr h100 w,
      rate_congr h100 w⟩

/-- Closed witness: inputs that agree on the relevant prefix and differ
afterwards drive the operations identically. -/
theorem c10_prefix_determinism_witness :
    categorizeContent wBoom (List.replicate 8000 'a' ++ strOf "b")
      = categorizeContent wBoom (List.replicate 8000 'a' ++ strOf "c") ∧
    generateBookDescription wBoom (List.replicate 4000 'a' ++ strOf "b")
      = generateBookDescription wBoom (List.replicate 4000 'a' ++ strOf "c") ∧
    rateContent wBoom (List.replicate 100000 'a' ++ strOf "b")
      = rateContent wBoom (List.replicate 100000 'a' ++ strOf "c") := by
  have h8 : (List.replicate 8000 'a' ++ strOf "b").take 8000
      = (List.replicate 8000 'a' ++ strOf "c").take 8000 := by
    rw [List.take_left' (List.length_replicate 8000 'a'),
      List.take_left' (List.length_replicate 8000 'a')]
  have h4 : (List.replicate 4000 'a' ++ strOf "b").take 4000
      = (List.replicate 4000 'a' ++ strOf "c").take 4000 := by
    rw [List.take_left' (List.length_replicate 4000 'a'),
      List.take_left' (List.length_replicate 4000 'a')]
  have h100 : (List.replicate 100000 'a' ++ strOf "b").take 100000
      = (List.replicate 100000 'a' ++ strOf "c").take 100000 := by
    rw [List.take_left' (List.length_replicate 100000 'a'),
      List.take_left' (List.length_replicate 100000 'a')]
  refine ⟨((c10_prefix_determinism wBoom _ _ 1).1 h8).2.2.1,
    ((c10_prefix_determinism wBoom _ _ 1).2.1 h4).2.2.1,
    ?_⟩
  exact (((c10_prefix_determinism wBoom _ _ 1).2.2 h100).2.2.2.2.2.2.2.2.2.2.2.2.2)

end Kutbi
